import Mathlib

/-!
Shallow embedding of the PURK-plus risk-calculator core
(`src/components/calculations.ts`) and of the duplicated scorer
`purkPoints` that appears in the UI variants
(`src/app/page.tsx`, `src/unnamed/part_000`).

JavaScript numbers are modelled by `JSNum`: an exact rational for every
finite double, plus the three non-finite values NaN, +Infinity and
-Infinity.  Comparisons against NaN are false, and multiplication and
division of a non-finite value by the positive constant 88.4 follow the
IEEE rules.  Two levels of fidelity are used for the finite arithmetic:
the plain operations (`JSNum.mulPosConst`, `JSNum.divPosConst`) keep
exact rationals and ignore double overflow, which is immaterial for the
threshold-comparison claims (any overflowing magnitude decides the
`> 150` and band comparisons the same way an infinity does); the
overflow-aware operations (suffix `Ov`, built on `ovClamp` and
`DBL_MAX`) additionally send results beyond the double range to the
matching infinity, as JavaScript multiplication does, which is decisive
for the unit round-trip analysis.
-/

namespace PURKPlus

/-- A JavaScript number: NaN, plus or minus infinity, or a finite value
(modelled as an exact rational). -/
inductive JSNum where
  | nan : JSNum
  | inf : JSNum
  | ninf : JSNum
  | fin (q : ℚ) : JSNum
deriving DecidableEq

/-- `Number.isFinite`. -/
def JSNum.isFinite : JSNum → Bool
  | .fin _ => true
  | _ => false

/-- IEEE multiplication of a number by a positive finite constant
(used only with `c = 88.4`): NaN propagates, infinities keep their
sign.  Finite results are kept as exact rationals with no overflow;
`JSNum.mulPosConstOv` is the overflow-aware refinement. -/
def JSNum.mulPosConst : JSNum → ℚ → JSNum
  | .nan, _ => .nan
  | .inf, _ => .inf
  | .ninf, _ => .ninf
  | .fin q, c => .fin (q * c)

/-- IEEE division of a number by a positive finite constant
(used only with `c = 88.4`): NaN propagates, infinities keep their sign. -/
def JSNum.divPosConst : JSNum → ℚ → JSNum
  | .nan, _ => .nan
  | .inf, _ => .inf
  | .ninf, _ => .ninf
  | .fin q, c => .fin (q / c)

/-- The JavaScript comparison `x > c` against a finite constant:
false for NaN, true for +Infinity, false for -Infinity. -/
def JSNum.gtConst : JSNum → ℚ → Bool
  | .nan, _ => false
  | .inf, _ => true
  | .ninf, _ => false
  | .fin q, c => decide (q > c)

/-- The JavaScript comparison `x >= c` against a finite constant:
false for NaN, true for +Infinity, false for -Infinity. -/
def JSNum.geConst : JSNum → ℚ → Bool
  | .nan, _ => false
  | .inf, _ => true
  | .ninf, _ => false
  | .fin q, c => decide (q ≥ c)

/-- `type Unit = "mg/dL" | "µmol/L"` from calculations.ts. -/
inductive Unit where
  | mgdl : Unit
  | umol : Unit
deriving DecidableEq

/-- `const UMOL_PER_MGDL = 88.4`. -/
def UMOL_PER_MGDL : ℚ := 88.4

/-- `function mgdlToUmol(mgdl) { return mgdl * UMOL_PER_MGDL; }`. -/
def mgdlToUmol (mgdl : JSNum) : JSNum := mgdl.mulPosConst UMOL_PER_MGDL

/-- `function umolToMgdl(umol) { return umol / UMOL_PER_MGDL; }`. -/
def umolToMgdl (umol : JSNum) : JSNum := umol.divPosConst UMOL_PER_MGDL

/-- The record `{ mgdl: number; umol: number }` returned by
`normalizeCreatinine`. -/
structure NormalizedCreatinine where
  mgdl : JSNum
  umol : JSNum
deriving DecidableEq

/-- `normalizeCreatinine` from calculations.ts: non-finite input yields
NaN in both fields, otherwise the value is copied into its own unit's
field and converted into the other. -/
def normalizeCreatinine (value : JSNum) (unit : Unit) : NormalizedCreatinine :=
  if !value.isFinite then ⟨.nan, .nan⟩
  else if unit = Unit.mgdl then ⟨value, mgdlToUmol value⟩
  else ⟨umolToMgdl value, value⟩

/-- `type PURKInputs` from calculations.ts: the optional >72h creatinine
in mg/dL (`none` = null = unknown) and the three boolean flags. -/
structure PURKInputs where
  creatinine72h_mgdl : Option JSNum
  failureToThrive : Bool
  highGradeVUR : Bool
  renalDysplasia : Bool
deriving DecidableEq

/-- `calculatePURKScore` from calculations.ts: +2 for a present, finite
creatinine whose µmol/L conversion exceeds 150; +2 for failure to
thrive; +1 for high-grade VUR; +1 for renal dysplasia. -/
def calculatePURKScore (inputs : PURKInputs) : ℤ :=
  (match inputs.creatinine72h_mgdl with
   | none => 0
   | some v =>
     if v.isFinite && (mgdlToUmol v).gtConst 150 then 2 else 0)
  + (if inputs.failureToThrive then 2 else 0)
  + (if inputs.highGradeVUR then 1 else 0)
  + (if inputs.renalDysplasia then 1 else 0)

/-- `type RiskGroup = "Low" | "Intermediate" | "High"`. -/
inductive RiskGroup where
  | Low : RiskGroup
  | Intermediate : RiskGroup
  | High : RiskGroup
deriving DecidableEq, Fintype

/-- `purkRiskGroup` from calculations.ts. -/
def purkRiskGroup (score : ℤ) : RiskGroup :=
  if score ≥ 4 then .High
  else if score ≥ 2 then .Intermediate
  else .Low

/-- `scn1RiskGroup` from calculations.ts: null or non-finite yields
null, then the closed-below bands at 1.0 and 0.4 and 0, negative
yields null. -/
def scn1RiskGroup (scn1_mgdl : Option JSNum) : Option RiskGroup :=
  match scn1_mgdl with
  | none => none
  | some v =>
    if !v.isFinite then none
    else if v.geConst 1.0 then some .High
    else if v.geConst 0.4 then some .Intermediate
    else if v.geConst 0 then some .Low
    else none

/-- `purkPlusRisk` from calculations.ts: the inline 3x3 lookup
`table[purk][scn1]`, with rows indexed by the presentation (PURK) group
and columns by the follow-up (SCN1) group; null follow-up yields null. -/
def purkPlusRisk (purk : RiskGroup) (scn1 : Option RiskGroup) : Option RiskGroup :=
  match scn1 with
  | none => none
  | some s =>
    some (match purk, s with
      | .Low, .Low => .Low
      | .Low, .Intermediate => .Intermediate
      | .Low, .High => .High
      | .Intermediate, .Low => .Low
      | .Intermediate, .Intermediate => .Intermediate
      | .Intermediate, .High => .High
      | .High, .Low => .Intermediate
      | .High, .Intermediate => .High
      | .High, .High => .High)

/-- `purkPoints`, the duplicated scorer in the UI variants
(`src/app/page.tsx` and `src/unnamed/part_000`): identical to
`calculatePURKScore` except that the creatinine branch checks only
`!= null`, without the `Number.isFinite` guard. -/
def purkPoints (inputs : PURKInputs) : ℤ :=
  (match inputs.creatinine72h_mgdl with
   | none => 0
   | some v =>
     if (mgdlToUmol v).gtConst 150 then 2 else 0)
  + (if inputs.failureToThrive then 2 else 0)
  + (if inputs.highGradeVUR then 1 else 0)
  + (if inputs.renalDysplasia then 1 else 0)

/-- The spec's 3x3 combination table, written exactly as the claim
words it: rows indexed by the follow-up group, columns by the
presentation group. -/
def specCombineTable (followUp presentation : RiskGroup) : RiskGroup :=
  match followUp, presentation with
  | .Low, .Low => .Low
  | .Low, .Intermediate => .Low
  | .Low, .High => .Intermediate
  | .Intermediate, .Low => .Intermediate
  | .Intermediate, .Intermediate => .Intermediate
  | .Intermediate, .High => .High
  | .High, _ => .High

/-- The follow-up classifier as the spec words it: absent or non-finite
is undefined, then value >= 1.0 is High, 0.4 <= value < 1.0 is
Intermediate, 0 <= value < 0.4 is Low, and value < 0 is undefined. -/
def specFollowUpGroup : Option JSNum → Option RiskGroup
  | none => none
  | some .nan => none
  | some .inf => none
  | some .ninf => none
  | some (.fin q) =>
    if q ≥ 1 then some .High
    else if 0.4 ≤ q ∧ q < 1 then some .Intermediate
    else if 0 ≤ q ∧ q < 0.4 then some .Low
    else none

/-- The creatinine contribution as the spec words it: +2 exactly when a
present, finite reading is strictly greater than 150 in molar units
after conversion; absent, NaN or infinite readings contribute 0. -/
def specCreatininePoints : Option JSNum → ℤ
  | some (.fin q) => if q * UMOL_PER_MGDL > 150 then 2 else 0
  | _ => 0

/-- Numeric rank of a risk group under the order Low < Intermediate < High. -/
def RiskGroup.toNat : RiskGroup → ℕ
  | .Low => 0
  | .Intermediate => 1
  | .High => 2

/-- Boolean order Low <= Intermediate <= High on risk groups. -/
def RiskGroup.le (a b : RiskGroup) : Bool := decide (a.toNat ≤ b.toNat)

/-- Order on optional risk groups, defined only when both are present. -/
def riskLeOpt : Option RiskGroup → Option RiskGroup → Bool
  | some a, some b => a.le b
  | _, _ => false

/-- The largest finite IEEE-754 double, (2^53 - 1) * 2^971, as an
exact rational. -/
def DBL_MAX : ℚ := (2 ^ 53 - 1) * 2 ^ 971

/-- Overflow of an exact real result into the double range: a
magnitude beyond `DBL_MAX` becomes the matching infinity, anything
else stays finite. -/
def ovClamp (q : ℚ) : JSNum :=
  if q > DBL_MAX then .inf
  else if q < -DBL_MAX then .ninf
  else .fin q

/-- Overflow-aware refinement of `JSNum.mulPosConst`: IEEE
multiplication by a positive finite constant, with finite results
beyond the double range overflowing to an infinity. -/
def JSNum.mulPosConstOv : JSNum → ℚ → JSNum
  | .nan, _ => .nan
  | .inf, _ => .inf
  | .ninf, _ => .ninf
  | .fin q, c => ovClamp (q * c)

/-- Overflow-aware refinement of `JSNum.divPosConst`. -/
def JSNum.divPosConstOv : JSNum → ℚ → JSNum
  | .nan, _ => .nan
  | .inf, _ => .inf
  | .ninf, _ => .ninf
  | .fin q, c => ovClamp (q / c)

/-- `mgdlToUmol` under the overflow-aware double model. -/
def mgdlToUmolOv (mgdl : JSNum) : JSNum := mgdl.mulPosConstOv UMOL_PER_MGDL

/-- `umolToMgdl` under the overflow-aware double model. -/
def umolToMgdlOv (umol : JSNum) : JSNum := umol.divPosConstOv UMOL_PER_MGDL

/-- `normalizeCreatinine` from calculations.ts under the overflow-aware
double model: the same source function as `normalizeCreatinine`, with
the unit conversions allowed to overflow to an infinity exactly as
JavaScript multiplication and division of doubles do. -/
def normalizeCreatinineOv (value : JSNum) (unit : Unit) : NormalizedCreatinine :=
  if !value.isFinite then ⟨.nan, .nan⟩
  else if unit = Unit.mgdl then ⟨value, mgdlToUmolOv value⟩
  else ⟨umolToMgdlOv value, value⟩

/-- C1: for every pair of defined risk groups, `purkPlusRisk` returns
exactly the entry of the fixed 3x3 table with rows indexed by the
follow-up group and columns by the presentation group; in particular,
presentation High with follow-up Low yields Intermediate. -/
theorem purkPlusRisk_eq_specCombineTable :
    (∀ p f : RiskGroup, purkPlusRisk p (some f) = some (specCombineTable f p)) ∧
    purkPlusRisk .High (some .Low) = some .Intermediate := by
  exact ⟨by decide, by decide⟩

/-- Helper: the creatinine branch of `calculatePURKScore` agrees with the
spec-worded contribution `specCreatininePoints`. -/
theorem creatinineBranch_eq_specCreatininePoints (cr : Option JSNum) :
    (match cr with
     | none => (0 : ℤ)
     | some v => if v.isFinite && (mgdlToUmol v).gtConst 150 then 2 else 0)
      = specCreatininePoints cr := by
  match cr with
  | none => rfl
  | some .nan => rfl
  | some .inf => rfl
  | some .ninf => rfl
  | some (.fin q) =>
    simp only [specCreatininePoints, JSNum.isFinite, mgdlToUmol, JSNum.mulPosConst,
      JSNum.gtConst, Bool.true_and, decide_eq_true_eq, gt_iff_lt]

/-- Helper: `specCreatininePoints` is 0 or 2. -/
theorem specCreatininePoints_bounds (cr : Option JSNum) :
    0 ≤ specCreatininePoints cr ∧ specCreatininePoints cr ≤ 2 := by
  match cr with
  | none => exact ⟨by norm_num [specCreatininePoints], by norm_num [specCreatininePoints]⟩
  | some .nan => exact ⟨by norm_num [specCreatininePoints], by norm_num [specCreatininePoints]⟩
  | some .inf => exact ⟨by norm_num [specCreatininePoints], by norm_num [specCreatininePoints]⟩
  | some .ninf => exact ⟨by norm_num [specCreatininePoints], by norm_num [specCreatininePoints]⟩
  | some (.fin q) =>
    simp only [specCreatininePoints]
    split_ifs <;> norm_num

/-- C2: the follow-up classifier `scn1RiskGroup` maps absent or
non-finite readings to undefined, readings at least 1.0 to High,
readings in [0.4, 1.0) to Intermediate, readings in [0, 0.4) to Low,
and negative readings to undefined, with each band closed on its lower
edge. -/
theorem scn1RiskGroup_eq_specFollowUpGroup :
    ∀ ov : Option JSNum, scn1RiskGroup ov = specFollowUpGroup ov := by
  intro ov
  match ov with
  | none => rfl
  | some .nan => rfl
  | some .inf => rfl
  | some .ninf => rfl
  | some (.fin q) =>
    have e1 : ((1.0 : ℚ)) = 1 := by norm_num
    have e4 : ((0.4 : ℚ)) = 2 / 5 := by norm_num
    simp only [scn1RiskGroup, specFollowUpGroup, JSNum.isFinite, JSNum.geConst,
      Bool.not_true, Bool.false_eq_true, if_false, decide_eq_true_eq, ge_iff_le,
      e1, e4]
    rcases le_or_lt (1 : ℚ) q with h1 | h1
    · rw [if_pos h1, if_pos h1]
    · rw [if_neg (not_le.mpr h1), if_neg (not_le.mpr h1)]
      rcases le_or_lt (2 / 5 : ℚ) q with h4 | h4
      · rw [if_pos h4,
          if_pos (show (2 : ℚ) / 5 ≤ q ∧ q < 1 from ⟨h4, h1⟩)]
      · rw [if_neg (not_le.mpr h4),
          if_neg (show ¬((2 : ℚ) / 5 ≤ q ∧ q < 1) from
            fun hc => absurd hc.1 (not_le.mpr h4))]
        rcases le_or_lt (0 : ℚ) q with h0 | h0
        · rw [if_pos h0,
            if_pos (show (0 : ℚ) ≤ q ∧ q < 2 / 5 from ⟨h0, h4⟩)]
        · rw [if_neg (not_le.mpr h0),
            if_neg (show ¬((0 : ℚ) ≤ q ∧ q < 2 / 5) from
              fun hc => absurd hc.1 (not_le.mpr h0))]

/-- C3: `calculatePURKScore` is the sum of the four independent
contributions the spec describes, and always lies in [0, 6]. -/
theorem calculatePURKScore_decomposition :
    ∀ i : PURKInputs,
      calculatePURKScore i =
        specCreatininePoints i.creatinine72h_mgdl
          + (if i.failureToThrive then 2 else 0)
          + (if i.highGradeVUR then 1 else 0)
          + (if i.renalDysplasia then 1 else 0) ∧
      0 ≤ calculatePURKScore i ∧ calculatePURKScore i ≤ 6 := by
  intro i
  obtain ⟨cr, ftt, vur, dys⟩ := i
  have hdec : calculatePURKScore ⟨cr, ftt, vur, dys⟩ =
      specCreatininePoints cr
        + (if ftt then 2 else 0) + (if vur then 1 else 0)
        + (if dys then 1 else 0) := by
    simp only [calculatePURKScore]
    rw [creatinineBranch_eq_specCreatininePoints]
  refine ⟨hdec, ?_, ?_⟩ <;>
    · rw [hdec]
      obtain ⟨h0, h2⟩ := specCreatininePoints_bounds cr
      cases ftt <;> cases vur <;> cases dys <;> simp <;> omega

/-- C4: on integer scores in [0, 6], `purkRiskGroup` returns High
exactly when the score is at least 4, Intermediate exactly when it is
2 or 3, and Low exactly when it is at most 1. -/
theorem purkRiskGroup_bands :
    ∀ s : ℤ, 0 ≤ s → s ≤ 6 →
      ((purkRiskGroup s = .High ↔ 4 ≤ s) ∧
       (purkRiskGroup s = .Intermediate ↔ 2 ≤ s ∧ s ≤ 3) ∧
       (purkRiskGroup s = .Low ↔ s ≤ 1)) := by
  intro s h0 h6
  interval_cases s <;> exact ⟨by decide, by decide, by decide⟩

/-- C4 witness: score 2 classifies Intermediate and score 4 classifies
High, via the band theorem at those concrete scores. -/
theorem purkRiskGroup_bands_witness :
    (0 : ℤ) ≤ 2 ∧ (2 : ℤ) ≤ 6 ∧
      purkRiskGroup 2 = .Intermediate ∧ purkRiskGroup 4 = .High :=
  ⟨by norm_num, by norm_num,
    ((purkRiskGroup_bands 2 (by norm_num) (by norm_num)).2.1).mpr (by norm_num),
    ((purkRiskGroup_bands 4 (by norm_num) (by norm_num)).1).mpr (by norm_num)⟩

/-- C5: with all flags false, a reading whose molar conversion is
exactly 150 adds 0 points and any reading whose molar conversion
strictly exceeds 150 adds 2; the same holds for a molar-entry reading
that is normalized to mg/dL and converted back for the comparison. -/
theorem calculatePURKScore_creatinine_boundary :
    (∀ q : ℚ, q * UMOL_PER_MGDL = 150 →
        calculatePURKScore ⟨some (.fin q), false, false, false⟩ = 0) ∧
    (∀ q : ℚ, q * UMOL_PER_MGDL > 150 →
        calculatePURKScore ⟨some (.fin q), false, false, false⟩ = 2) ∧
    calculatePURKScore
        ⟨some ((normalizeCreatinine (.fin 150) Unit.umol).mgdl),
          false, false, false⟩ = 0 ∧
    (∀ v : ℚ, v > 150 →
        calculatePURKScore
          ⟨some ((normalizeCreatinine (.fin v) Unit.umol).mgdl),
            false, false, false⟩ = 2) := by
  have hne : (UMOL_PER_MGDL : ℚ) ≠ 0 := by norm_num [UMOL_PER_MGDL]
  refine ⟨?_, ?_, ?_, ?_⟩
  · intro q hq
    simp only [calculatePURKScore, mgdlToUmol, JSNum.mulPosConst, JSNum.gtConst,
      JSNum.isFinite, Bool.true_and, decide_eq_true_eq, gt_iff_lt,
      Bool.false_eq_true, if_false, add_zero, zero_add]
    rw [if_neg (by rw [hq]; exact lt_irrefl 150)]
  · intro q hq
    simp only [calculatePURKScore, mgdlToUmol, JSNum.mulPosConst, JSNum.gtConst,
      JSNum.isFinite, Bool.true_and, decide_eq_true_eq, gt_iff_lt,
      Bool.false_eq_true, if_false, add_zero, zero_add]
    rw [if_pos hq]
  · have hnorm : (normalizeCreatinine (.fin 150) Unit.umol).mgdl
        = .fin ((150 : ℚ) / UMOL_PER_MGDL) := rfl
    simp only [hnorm, calculatePURKScore, mgdlToUmol, JSNum.mulPosConst,
      JSNum.gtConst, JSNum.isFinite, Bool.true_and, decide_eq_true_eq, gt_iff_lt,
      Bool.false_eq_true, if_false, add_zero, zero_add]
    rw [div_mul_cancel₀ (150 : ℚ) hne, if_neg (lt_irrefl 150)]
  · intro v hv
    have hnorm : (normalizeCreatinine (.fin v) Unit.umol).mgdl
        = .fin (v / UMOL_PER_MGDL) := rfl
    simp only [hnorm, calculatePURKScore, mgdlToUmol, JSNum.mulPosConst,
      JSNum.gtConst, JSNum.isFinite, Bool.true_and, decide_eq_true_eq, gt_iff_lt,
      Bool.false_eq_true, if_false, add_zero, zero_add]
    rw [div_mul_cancel₀ v hne, if_pos hv]

/-- C5 witness: a 2 mg/dL reading (176.8 µmol/L) with all flags false
scores exactly 2, via the boundary theorem at that concrete input. -/
theorem calculatePURKScore_creatinine_boundary_witness :
    (2 : ℚ) * UMOL_PER_MGDL > 150 ∧
      calculatePURKScore ⟨some (.fin 2), false, false, false⟩ = 2 :=
  ⟨by norm_num [UMOL_PER_MGDL],
    calculatePURKScore_creatinine_boundary.2.1 2 (by norm_num [UMOL_PER_MGDL])⟩

/-- C6: whenever the follow-up group is undefined, `purkPlusRisk`
returns undefined for every presentation group. -/
theorem purkPlusRisk_undefined_followUp :
    ∀ p : RiskGroup, purkPlusRisk p none = none := by
  intro p
  rfl

/-- C7: `normalizeCreatinine` is total; NaN and both infinities yield
NaN in both fields; a finite mg/dL value v yields {mgdl = v,
umol = v * 88.4} and a finite µmol/L value v yields {mgdl = v / 88.4,
umol = v}, with no rounding. -/
theorem normalizeCreatinine_cases :
    (∀ u : Unit, normalizeCreatinine .nan u = ⟨.nan, .nan⟩) ∧
    (∀ u : Unit, normalizeCreatinine .inf u = ⟨.nan, .nan⟩) ∧
    (∀ u : Unit, normalizeCreatinine .ninf u = ⟨.nan, .nan⟩) ∧
    (∀ q : ℚ, normalizeCreatinine (.fin q) Unit.mgdl
        = ⟨.fin q, .fin (q * UMOL_PER_MGDL)⟩) ∧
    (∀ q : ℚ, normalizeCreatinine (.fin q) Unit.umol
        = ⟨.fin (q / UMOL_PER_MGDL), .fin q⟩) := by
  refine ⟨?_, ?_, ?_, ?_, ?_⟩
  · intro u; rfl
  · intro u; rfl
  · intro u; rfl
  · intro q; rfl
  · intro q; rfl

/-- C8 counterexample: at a +Infinity reading with all flags false the
duplicated scorer `purkPoints` returns 2 while the canonical
`calculatePURKScore` returns 0, so the two scorers are not equal on
every input. -/
theorem purkPoints_ne_calculatePURKScore_at_inf :
    purkPoints ⟨some .inf, false, false, false⟩ = 2 ∧
    calculatePURKScore ⟨some .inf, false, false, false⟩ = 0 ∧
    purkPoints ⟨some .inf, false, false, false⟩ ≠
      calculatePURKScore ⟨some .inf, false, false, false⟩ := by
  decide

/-- C8 amended: on every input whose reading is not +Infinity (absent,
NaN, -Infinity or finite), the duplicated scorer `purkPoints` agrees
with the canonical `calculatePURKScore`. -/
theorem purkPoints_eq_calculatePURKScore_of_ne_inf :
    ∀ i : PURKInputs, i.creatinine72h_mgdl ≠ some JSNum.inf →
      purkPoints i = calculatePURKScore i := by
  intro i h
  obtain ⟨cr, ftt, vur, dys⟩ := i
  match cr with
  | none => rfl
  | some .nan => rfl
  | some .ninf => rfl
  | some .inf => exact absurd rfl h
  | some (.fin q) => rfl

/-- C8 amended witness: the two scorers agree at a concrete finite
reading with all flags true. -/
theorem purkPoints_eq_calculatePURKScore_witness :
    (some (JSNum.fin 1) ≠ some JSNum.inf) ∧
      purkPoints ⟨some (.fin 1), true, true, true⟩ =
        calculatePURKScore ⟨some (.fin 1), true, true, true⟩ :=
  ⟨by decide, purkPoints_eq_calculatePURKScore_of_ne_inf
    ⟨some (.fin 1), true, true, true⟩ (by decide)⟩

/-- C9 counterexample: the finite value 10^307 mg/dL is inside the
double range, but its molar conversion overflows to +Infinity, so the
mass-to-molar-to-mass round trip returns NaN: it does not come within
1e-9 relative tolerance of the input, refuting the claim quantified
over every finite value. -/
theorem normalizeCreatinineOv_roundTrip_overflow :
    (JSNum.fin ((10 : ℚ) ^ 307)).isFinite = true ∧
    (10 : ℚ) ^ 307 ≤ DBL_MAX ∧
    (normalizeCreatinineOv (.fin ((10 : ℚ) ^ 307)) Unit.mgdl).umol = .inf ∧
    (normalizeCreatinineOv
        ((normalizeCreatinineOv (.fin ((10 : ℚ) ^ 307)) Unit.mgdl).umol)
        Unit.umol).mgdl = .nan ∧
    ¬ ∃ r : ℚ,
        (normalizeCreatinineOv
            ((normalizeCreatinineOv (.fin ((10 : ℚ) ^ 307)) Unit.mgdl).umol)
            Unit.umol).mgdl = .fin r ∧
          |r - (10 : ℚ) ^ 307| ≤ (1 / 1000000000) * |(10 : ℚ) ^ 307| := by
  have hov : (normalizeCreatinineOv (.fin ((10 : ℚ) ^ 307)) Unit.mgdl).umol
      = .inf := by
    show ovClamp ((10 : ℚ) ^ 307 * UMOL_PER_MGDL) = .inf
    unfold ovClamp
    rw [if_pos (by norm_num [UMOL_PER_MGDL, DBL_MAX])]
  have hnan : (normalizeCreatinineOv
      ((normalizeCreatinineOv (.fin ((10 : ℚ) ^ 307)) Unit.mgdl).umol)
      Unit.umol).mgdl = .nan := by
    rw [hov]
    rfl
  refine ⟨rfl, by norm_num [DBL_MAX], hov, hnan, ?_⟩
  rintro ⟨r, hr, htol⟩
  rw [hnan] at hr
  exact JSNum.noConfusion hr

/-- C9 amended: for every finite value v whose molar conversion stays
inside the double range (|v| * 88.4 <= DBL_MAX), the
mass-to-molar-to-mass round trip through the overflow-aware
normalizer is exact, hence within the spec's 1e-9 relative tolerance;
values converting beyond the double range instead round-trip to NaN. -/
theorem normalizeCreatinineOv_roundTrip :
    ∀ q : ℚ, |q| * UMOL_PER_MGDL ≤ DBL_MAX →
      (normalizeCreatinineOv ((normalizeCreatinineOv (.fin q) Unit.mgdl).umol)
          Unit.umol).mgdl = .fin q ∧
      ∃ r : ℚ,
        (normalizeCreatinineOv ((normalizeCreatinineOv (.fin q) Unit.mgdl).umol)
            Unit.umol).mgdl = .fin r ∧
          |r - q| ≤ (1 / 1000000000) * |q| := by
  intro q hq
  have hc : (0 : ℚ) < UMOL_PER_MGDL := by norm_num [UMOL_PER_MGDL]
  have habs : |q * UMOL_PER_MGDL| ≤ DBL_MAX := by
    rw [abs_mul, abs_of_pos hc]
    exact hq
  have h1 : ¬ (q * UMOL_PER_MGDL > DBL_MAX) := not_lt.mpr (abs_le.mp habs).2
  have h2 : ¬ (q * UMOL_PER_MGDL < -DBL_MAX) := not_lt.mpr (abs_le.mp habs).1
  have hqle : |q| ≤ DBL_MAX := by
    calc |q| ≤ |q| * UMOL_PER_MGDL :=
          le_mul_of_one_le_right (abs_nonneg q) (by norm_num [UMOL_PER_MGDL])
      _ ≤ DBL_MAX := hq
  have h3 : ¬ (q > DBL_MAX) := not_lt.mpr (abs_le.mp hqle).2
  have h4 : ¬ (q < -DBL_MAX) := not_lt.mpr (abs_le.mp hqle).1
  have hinner : (normalizeCreatinineOv (.fin q) Unit.mgdl).umol
      = .fin (q * UMOL_PER_MGDL) := by
    show ovClamp (q * UMOL_PER_MGDL) = .fin (q * UMOL_PER_MGDL)
    unfold ovClamp
    rw [if_neg h1, if_neg h2]
  have h : (normalizeCreatinineOv ((normalizeCreatinineOv (.fin q) Unit.mgdl).umol)
      Unit.umol).mgdl = .fin q := by
    rw [hinner]
    show ovClamp (q * UMOL_PER_MGDL / UMOL_PER_MGDL) = .fin q
    rw [mul_div_cancel_right₀ q (ne_of_gt hc)]
    unfold ovClamp
    rw [if_neg h3, if_neg h4]
  refine ⟨h, q, h, ?_⟩
  simp only [sub_self, abs_zero]
  positivity

/-- C9 amended witness: a 1 mg/dL reading converts to 88.4 µmol/L well
inside the double range and round-trips exactly, via the amended
theorem at that concrete input. -/
theorem normalizeCreatinineOv_roundTrip_witness :
    |(1 : ℚ)| * UMOL_PER_MGDL ≤ DBL_MAX ∧
      (normalizeCreatinineOv
          ((normalizeCreatinineOv (.fin 1) Unit.mgdl).umol) Unit.umol).mgdl
        = .fin 1 :=
  ⟨by norm_num [UMOL_PER_MGDL, DBL_MAX],
    (normalizeCreatinineOv_roundTrip 1
      (by norm_num [UMOL_PER_MGDL, DBL_MAX])).1⟩

/-- C10: `purkPlusRisk` is monotone non-decreasing in both the
presentation group and the follow-up group under Low < Intermediate <
High, and its result is always at least the follow-up group. -/
theorem purkPlusRisk_monotone :
    ∀ p p' f f' : RiskGroup,
      p.le p' = true → f.le f' = true →
      riskLeOpt (purkPlusRisk p (some f)) (purkPlusRisk p' (some f')) = true ∧
      riskLeOpt (some f) (purkPlusRisk p (some f)) = true := by
  decide

/-- C10 witness: monotonicity instantiated at presentation Low versus
High and follow-up Low versus Intermediate. -/
theorem purkPlusRisk_monotone_witness :
    RiskGroup.le .Low .High = true ∧ RiskGroup.le .Low .Intermediate = true ∧
      riskLeOpt (purkPlusRisk .Low (some .Low))
        (purkPlusRisk .High (some .Intermediate)) = true ∧
      riskLeOpt (some RiskGroup.Low) (purkPlusRisk .Low (some .Low)) = true :=
  ⟨by decide, by decide,
    (purkPlusRisk_monotone .Low .High .Low .Intermediate (by decide) (by decide)).1,
    (purkPlusRisk_monotone .Low .High .Low .Intermediate (by decide) (by decide)).2⟩

end PURKPlus
